import Mathlib

/-!
Verification of `SAM/generate_docs.py`, a generator that assembles a fixed
office document (headings, paragraphs, bulleted/numbered lists, styled quote
blocks) and writes it to disk.

The embedding models the document as an ordered list of content blocks, the
python-docx operations used by the script as append operations on that list,
and the script's own helpers (`add_heading`, `add_paragraph`, `add_bullets`,
`add_numbered`) and `generate_doc` as state-passing Lean functions.  The
ambient wall clock (`datetime.now()` formatted to minute resolution) is an
explicit `now : String` parameter, and `document.save(output_path)` is
modelled by returning the pair of the path and the final block list.
-/

namespace SAMDocs

/-- Paragraph alignment values of the docx library (`WD_ALIGN_PARAGRAPH`);
only `CENTER` and `RIGHT` are ever assigned by the script. -/
inductive WDAlign where
  | left
  | center
  | right
deriving DecidableEq

/-- A text run inside a paragraph.  `bold`/`italic` are tri-state in docx:
`none` means "inherit from the style", `some b` means explicitly set. -/
structure Run where
  text : String
  bold : Option Bool
  italic : Option Bool
deriving DecidableEq

/-- A paragraph: its runs, its named style, and its (optional) explicit
alignment.  A paragraph with `alignment = none` is rendered with the
default (left) alignment. -/
structure Paragraph where
  runs : List Run
  style : String
  alignment : Option WDAlign
deriving DecidableEq

/-- One appended content block of the document. -/
inductive Block where
  | heading : String → Nat → Block
  | para : Paragraph → Block
deriving DecidableEq

/-- A document is the ordered sequence of its appended content blocks. -/
abbrev Document := List Block

/-- Models `docx.Document()`: a fresh document with an empty body. -/
def docx_new : Document := []

/-- The paragraph produced by `docx.Document.add_paragraph(text, style)`:
one run holding `text` when `text` is nonempty (with no explicit
bold/italic), the given style, and no explicit alignment. -/
def docx_paragraph (text style : String) : Paragraph :=
  { runs := if text = "" then [] else [{ text := text, bold := none, italic := none }],
    style := style,
    alignment := none }

/-- Models `docx.Document.add_paragraph(text, style)`: appends the paragraph
and returns it together with the updated document. -/
def docx_add_paragraph (document : Document) (text style : String) :
    Document × Paragraph :=
  (document ++ [Block.para (docx_paragraph text style)], docx_paragraph text style)

/-- Models `docx.Document.add_heading(text, level)`. -/
def docx_add_heading (document : Document) (text : String) (level : Nat) : Document :=
  document ++ [Block.heading text level]

/-- Source `add_heading(document, text, level=1)`: appends a heading block. -/
def add_heading (document : Document) (text : String) (level : Nat) : Document :=
  docx_add_heading document text level

/-- Source `add_paragraph(document, text, bold=False, italic=False,
alignment=None)`.  The Python helper appends an empty paragraph, adds one
run, then assigns `run.bold`/`run.italic` (an explicit tri-state write, so
`some bold` / `some italic`), and sets the paragraph alignment only for the
strings "center" and "right"; here the net resulting paragraph is built
directly and appended, and the created paragraph is returned as in the
source. -/
def add_paragraph (document : Document) (text : String) (bold : Bool)
    (italic : Bool) (alignment : Option String) : Document × Paragraph :=
  let run : Run := { text := text, bold := some bold, italic := some italic }
  let align : Option WDAlign :=
    if alignment = some "center" then some WDAlign.center
    else if alignment = some "right" then some WDAlign.right
    else none
  let p : Paragraph := { runs := [run], style := "Normal", alignment := align }
  (document ++ [Block.para p], p)

/-- Source `add_bullets(document, items)`: one "List Bullet" paragraph per
item, in order. -/
def add_bullets (document : Document) (items : List String) : Document :=
  items.foldl (fun d item => (docx_add_paragraph d item "List Bullet").1) document

/-- Source `add_numbered(document, items)`: one "List Number" paragraph per
item, in order. -/
def add_numbered (document : Document) (items : List String) : Document :=
  items.foldl (fun d item => (docx_add_paragraph d item "List Number").1) document

/-- Module-level constant `OUTPUT_NAME`. -/
def OUTPUT_NAME : String := "SAM_Project_Documentation.docx"

/-- Source `generate_doc(output_path)`.  `now` models the current date-time
read from the ambient clock during the run, formatted to minute resolution
as %Y-%m-%d %H:%M; the returned pair models `document.save(output_path)`:
the path written and the document content written there. -/
def generate_doc (now : String) (output_path : String) : String × Document :=
  let document := docx_new
  let document := add_heading document
    "Segment Anything Model (SAM) - Project Documentation" 0
  let document := (add_paragraph document ("Generated: " ++ now) false true none).1
  let document := (add_paragraph document
    "Audience: Project Manager, Software Engineer" false true none).1
  let document := add_heading document "1. Executive Summary" 1
  let document := (add_paragraph document
    ("This project integrates Meta AI\x27s Segment Anything Model (SAM) to enable fast, flexible " ++
     "image segmentation. It includes a Python backend library and a TypeScript demo UI for " ++
     "interactive segmentation and ONNX inference.") false false none).1
  let document := add_bullets document [
    "Outcome: Generate high-quality object masks from images with minimal prompts",
    "Deliverables: Python package, demo web app, example notebooks, output masks",
    "Stakeholders: PM, ML/Software Engineers",
    "Status: Ready for local runs and demonstrations"]
  let document := add_heading document "2. Scope & Objectives" 1
  let document := add_bullets document [
    "Integrate SAM core components for promptable segmentation",
    "Provide automatic mask generation utility",
    "Export model to ONNX and demo browser inference",
    "Offer notebooks for common usage patterns"]
  let document := add_heading document "3. Architecture Overview" 1
  let document := (add_paragraph document "High-level components:" false false none).1
  let document := add_numbered document [
    "Python package (`segment_anything/`): model, encoders, decoders, utilities",
    "Scripts (`scripts/`): automatic mask generator, ONNX export",
    "Notebooks (`notebooks/`): runnable examples",
    "Web demo (`segment-anything/demo/`): React + TypeScript UI",
    "Artifacts (`output_dir/`): generated masks and overlays"]
  let document := add_heading document "4. Key Directories & Files" 1
  let document := add_bullets document [
    "segment_anything/modeling/sam.py: SAM model assembly",
    "segment_anything/predictor.py: High-level predictor API",
    "segment_anything/automatic_mask_generator.py: Batch/auto mask generation",
    "segment_anything/utils/onnx.py: ONNX export helpers",
    "scripts/amg.py: CLI for automatic mask generation",
    "scripts/export_onnx_model.py: Export to ONNX",
    "segment-anything/demo/src: Frontend demo application",
    "output_dir/mask/*.png: Generated masks",
    "output_dir/mask_overlay.png: Composite overlay"]
  let document := add_heading document "5. Setup & Installation" 1
  let document := (add_paragraph document "Prerequisites:" false false none).1
  let document := add_bullets document [
    "Python 3.9+ with pip",
    "Node.js 16+ (for web demo)",
    "GPU optional; CPU works for demos (slower)"]
  let document := (add_paragraph document "Python package install:" false false none).1
  let document := (docx_add_paragraph document "pip install -e ." "Intense Quote").1
  let document := (add_paragraph document
    "Optional extras: PyTorch, onnxruntime, onnxruntime-gpu depending on environment."
    false false none).1
  let document := add_heading document "6. Usage - Python" 1
  let document := (add_paragraph document
    "Predictor example (points, boxes, masks): see `notebooks/predictor_example.ipynb`."
    false false none).1
  let document := (add_paragraph document "Automatic mask generation:" false false none).1
  let document := (docx_add_paragraph document
    "python scripts/amg.py --input <image_or_folder> --output output_dir/"
    "Intense Quote").1
  let document := add_heading document "7. ONNX & Web Demo" 1
  let document := (add_paragraph document "Export ONNX model:" false false none).1
  let document := (docx_add_paragraph document
    "python scripts/export_onnx_model.py --checkpoint <path_to_ckpt> --output sam.onnx"
    "Intense Quote").1
  let document := (add_paragraph document "Run demo app:" false false none).1
  let document := (docx_add_paragraph document
    "cd segment-anything/demo && npm ci && npm run dev"
    "Intense Quote").1
  let document := add_heading document "8. Data Flow" 1
  let document := add_bullets document [
    "Input image loaded and preprocessed (transforms)",
    "Prompt encoding (points/boxes/masks)",
    "Image encoding via vision transformer",
    "Mask decoding conditioned on prompts",
    "Post-processing and thresholding to produce binary masks"]
  let document := add_heading document "9. Quality, Performance, and Risks" 1
  let document := add_bullets document [
    "Deterministic inference given fixed prompts",
    "Performance depends on model size and hardware",
    "Memory use may be high for large images",
    "ONNX runtime on CPU may be slow; prefer GPU if available"]
  let document := add_heading document "10. Roadmap & Next Steps" 1
  let document := add_bullets document [
    "Add CLI for promptable single-image segmentation",
    "Dockerize demo and backend for easier deployment",
    "Provide evaluation scripts and metrics",
    "Integrate continuous testing and linting in CI"]
  let document := add_heading document "Appendix A: References" 1
  let document := add_bullets document [
    "README.md for overall guidance",
    "Notebooks for hands-on examples",
    "Demo `README.md` for web UI"]
  (output_path, document)

/-- The observable outcome of a process run: the file written (path and
content), if any, and the lines printed to stdout. -/
structure RunOutput where
  written : Option (String × Document)
  stdout : List String
deriving DecidableEq

/-- Models `os.path.join(dir, name)` for a plain relative `name`. -/
def os_path_join (dir name : String) : String :=
  if dir = "" then name
  else if dir.endsWith "/" then dir ++ name
  else dir ++ "/" ++ name

/-- A POSIX path is absolute when it starts with a slash. -/
def isAbsolute (s : String) : Bool :=
  match s.data with
  | [] => false
  | c :: _ => c == '/'

/-- Models the whole process: the module-load import guard (`try/except`
around the python-docx imports, raising `SystemExit` with a user-readable
message) followed by the zero-argument `__main__` block, which joins the
script directory with `OUTPUT_NAME`, runs `generate_doc`, and prints the
path written.  `docx_available` models whether the python-docx import
succeeds; `script_dir` models `os.path.dirname(__file__)` (absolute on the
Python versions able to run this script); `now` models the formatted
current date-time. -/
def run_main (docx_available : Bool) (script_dir : String) (now : String) :
    Except String RunOutput :=
  if docx_available then
    let out_path := os_path_join script_dir OUTPUT_NAME
    let saved := generate_doc now out_path
    Except.ok { written := some saved,
                stdout := ["Wrote documentation to: " ++ out_path] }
  else
    Except.error
      "Missing dependency \x27python-docx\x27. Please install it: pip install python-docx"

/-- The headings of a document, in order, with their levels. -/
def headings (d : Document) : List (String × Nat) :=
  d.filterMap (fun b =>
    match b with
    | Block.heading t l => some (t, l)
    | Block.para _ => none)

/-- The concatenated text of a paragraph's runs. -/
def paraText (p : Paragraph) : String :=
  String.join (p.runs.map Run.text)

/-- Whether a style name is one of the two list-item styles. -/
def isListStyle (s : String) : Bool :=
  s == "List Bullet" || s == "List Number"

/-- A block's contribution to a rendered list: its style and text, when it is
a list-styled paragraph. -/
def blockItem : Block → Option (String × String)
  | Block.heading _ _ => none
  | Block.para p => if isListStyle p.style then some (p.style, paraText p) else none

/-- Folding step grouping maximal runs of consecutive same-style list
paragraphs; the accumulator is (closed groups, currently open group). -/
def groupStep (acc : List (String × List String) × Option (String × List String))
    (b : Block) : List (String × List String) × Option (String × List String) :=
  match blockItem b, acc.2 with
  | none, none => (acc.1, none)
  | none, some g => (acc.1 ++ [g], none)
  | some (st, tx), none => (acc.1, some (st, [tx]))
  | some (st, tx), some (st2, txs) =>
    if st = st2 then (acc.1, some (st2, txs ++ [tx]))
    else (acc.1 ++ [(st2, txs)], some (st, [tx]))

/-- The rendered list blocks of a document: each maximal run of consecutive
paragraphs sharing one of the two list styles, as (style, items in order). -/
def listGroups (d : Document) : List (String × List String) :=
  match d.foldl groupStep ([], none) with
  | (gs, none) => gs
  | (gs, some g) => gs ++ [g]

/-- The alignment a paragraph is rendered with: an unset alignment property
(`none`) renders as the default, left. -/
def renderedAlignment : Option WDAlign → WDAlign
  | none => WDAlign.left
  | some a => a

/-! ## General lemmas about the embedded operations -/

lemma foldl_append_map (f : String → Block) :
    ∀ (items : List String) (d : Document),
      items.foldl (fun acc it => acc ++ [f it]) d = d ++ items.map f
  | [], d => by simp
  | it :: items, d => by
    rw [List.foldl_cons, foldl_append_map f items (d ++ [f it])]
    simp

lemma string_append_left_cancel {s t₁ t₂ : String} (h : s ++ t₁ = s ++ t₂) :
    t₁ = t₂ := by
  have hd := congrArg String.data h
  rw [String.data_append, String.data_append] at hd
  exact String.ext (List.append_cancel_left hd)

lemma isAbsolute_append (s t : String) (h : isAbsolute s = true) :
    isAbsolute (s ++ t) = true := by
  unfold isAbsolute at h ⊢
  rw [String.data_append]
  cases hd : s.data with
  | nil => rw [hd] at h; exact absurd h (by decide)
  | cons c cs => rw [hd] at h; simpa using h

/-- The time-stamped cover paragraph appended second during a run whose
formatted clock reading is `now`. -/
def coverPara (now : String) : Paragraph :=
  { runs := [{ text := "Generated: " ++ now, bold := some false, italic := some true }],
    style := "Normal", alignment := none }

/-- The fixed tail of the generated content: every block after the title
heading and the time-stamped cover paragraph.  Identical across runs. -/
def docTail : Document :=
  [SAMDocs.Block.para
     { runs := [{ text := "Audience: Project Manager, Software Engineer", bold := some false, italic := some true }],
       style := "Normal",
       alignment := none },
   SAMDocs.Block.heading "1. Executive Summary" 1,
   SAMDocs.Block.para
     { runs := [{ text := "This project integrates Meta AI\x27s Segment Anything Model (SAM) to enable fast, flexible image segmentation. It includes a Python backend library and a TypeScript demo UI for interactive segmentation and ONNX inference.",
                  bold := some false,
                  italic := some false }],
       style := "Normal",
       alignment := none },
   SAMDocs.Block.para
     { runs := [{ text := "Outcome: Generate high-quality object masks from images with minimal prompts",
                  bold := none,
                  italic := none }],
       style := "List Bullet",
       alignment := none },
   SAMDocs.Block.para
     { runs := [{ text := "Deliverables: Python package, demo web app, example notebooks, output masks",
                  bold := none,
                  italic := none }],
       style := "List Bullet",
       alignment := none },
   SAMDocs.Block.para
     { runs := [{ text := "Stakeholders: PM, ML/Software Engineers", bold := none, italic := none }],
       style := "List Bullet",
       alignment := none },
   SAMDocs.Block.para
     { runs := [{ text := "Status: Ready for local runs and demonstrations", bold := none, italic := none }],
       style := "List Bullet",
       alignment := none },
   SAMDocs.Block.heading "2. Scope & Objectives" 1,
   SAMDocs.Block.para
     { runs := [{ text := "Integrate SAM core components for promptable segmentation", bold := none, italic := none }],
       style := "List Bullet",
       alignment := none },
   SAMDocs.Block.para
     { runs := [{ text := "Provide automatic mask generation utility", bold := none, italic := none }],
       style := "List Bullet",
       alignment := none },
   SAMDocs.Block.para
     { runs := [{ text := "Export model to ONNX and demo browser inference", bold := none, italic := none }],
       style := "List Bullet",
       alignment := none },
   SAMDocs.Block.para
     { runs := [{ text := "Offer notebooks for common usage patterns", bold := none, italic := none }],
       style := "List Bullet",
       alignment := none },
   SAMDocs.Block.heading "3. Architecture Overview" 1,
   SAMDocs.Block.para
     { runs := [{ text := "High-level components:", bold := some false, italic := some false }],
       style := "Normal",
       alignment := none },
   SAMDocs.Block.para
     { runs := [{ text := "Python package (`segment_anything/`): model, encoders, decoders, utilities",
                  bold := none,
                  italic := none }],
       style := "List Number",
       alignment := none },
   SAMDocs.Block.para
     { runs := [{ text := "Scripts (`scripts/`): automatic mask generator, ONNX export", bold := none, italic := none }],
       style := "List Number",
       alignment := none },
   SAMDocs.Block.para
     { runs := [{ text := "Notebooks (`notebooks/`): runnable examples", bold := none, italic := none }],
       style := "List Number",
       alignment := none },
   SAMDocs.Block.para
     { runs := [{ text := "Web demo (`segment-anything/demo/`): React + TypeScript UI", bold := none, italic := none }],
       style := "List Number",
       alignment := none },
   SAMDocs.Block.para
     { runs := [{ text := "Artifacts (`output_dir/`): generated masks and overlays", bold := none, italic := none }],
       style := "List Number",
       alignment := none },
   SAMDocs.Block.heading "4. Key Directories & Files" 1,
   SAMDocs.Block.para
     { runs := [{ text := "segment_anything/modeling/sam.py: SAM model assembly", bold := none, italic := none }],
       style := "List Bullet",
       alignment := none },
   SAMDocs.Block.para
     { runs := [{ text := "segment_anything/predictor.py: High-level predictor API", bold := none, italic := none }],
       style := "List Bullet",
       alignment := none },
   SAMDocs.Block.para
     { runs := [{ text := "segment_anything/automatic_mask_generator.py: Batch/auto mask generation",
                  bold := none,
                  italic := none }],
       style := "List Bullet",
       alignment := none },
   SAMDocs.Block.para
     { runs := [{ text := "segment_anything/utils/onnx.py: ONNX export helpers", bold := none, italic := none }],
       style := "List Bullet",
       alignment := none },
   SAMDocs.Block.para
     { runs := [{ text := "scripts/amg.py: CLI for automatic mask generation", bold := none, italic := none }],
       style := "List Bullet",
       alignment := none },
   SAMDocs.Block.para
     { runs := [{ text := "scripts/export_onnx_model.py: Export to ONNX", bold := none, italic := none }],
       style := "List Bullet",
       alignment := none },
   SAMDocs.Block.para
     { runs := [{ text := "segment-anything/demo/src: Frontend demo application", bold := none, italic := none }],
       style := "List Bullet",
       alignment := none },
   SAMDocs.Block.para
     { runs := [{ text := "output_dir/mask/*.png: Generated masks", bold := none, italic := none }],
       style := "List Bullet",
       alignment := none },
   SAMDocs.Block.para
     { runs := [{ text := "output_dir/mask_overlay.png: Composite overlay", bold := none, italic := none }],
       style := "List Bullet",
       alignment := none },
   SAMDocs.Block.heading "5. Setup & Installation" 1,
   SAMDocs.Block.para
     { runs := [{ text := "Prerequisites:", bold := some false, italic := some false }],
       style := "Normal",
       alignment := none },
   SAMDocs.Block.para
     { runs := [{ text := "Python 3.9+ with pip", bold := none, italic := none }],
       style := "List Bullet",
       alignment := none },
   SAMDocs.Block.para
     { runs := [{ text := "Node.js 16+ (for web demo)", bold := none, italic := none }],
       style := "List Bullet",
       alignment := none },
   SAMDocs.Block.para
     { runs := [{ text := "GPU optional; CPU works for demos (slower)", bold := none, italic := none }],
       style := "List Bullet",
       alignment := none },
   SAMDocs.Block.para
     { runs := [{ text := "Python package install:", bold := some false, italic := some false }],
       style := "Normal",
       alignment := none },
   SAMDocs.Block.para
     { runs := [{ text := "pip install -e .", bold := none, italic := none }],
       style := "Intense Quote",
       alignment := none },
   SAMDocs.Block.para
     { runs := [{ text := "Optional extras: PyTorch, onnxruntime, onnxruntime-gpu depending on environment.",
                  bold := some false,
                  italic := some false }],
       style := "Normal",
       alignment := none },
   SAMDocs.Block.heading "6. Usage - Python" 1,
   SAMDocs.Block.para
     { runs := [{ text := "Predictor example (points, boxes, masks): see `notebooks/predictor_example.ipynb`.",
                  bold := some false,
                  italic := some false }],
       style := "Normal",
       alignment := none },
   SAMDocs.Block.para
     { runs := [{ text := "Automatic mask generation:", bold := some false, italic := some false }],
       style := "Normal",
       alignment := none },
   SAMDocs.Block.para
     { runs := [{ text := "python scripts/amg.py --input <image_or_folder> --output output_dir/",
                  bold := none,
                  italic := none }],
       style := "Intense Quote",
       alignment := none },
   SAMDocs.Block.heading "7. ONNX & Web Demo" 1,
   SAMDocs.Block.para
     { runs := [{ text := "Export ONNX model:", bold := some false, italic := some false }],
       style := "Normal",
       alignment := none },
   SAMDocs.Block.para
     { runs := [{ text := "python scripts/export_onnx_model.py --checkpoint <path_to_ckpt> --output sam.onnx",
                  bold := none,
                  italic := none }],
       style := "Intense Quote",
       alignment := none },
   SAMDocs.Block.para
     { runs := [{ text := "Run demo app:", bold := some false, italic := some false }],
       style := "Normal",
       alignment := none },
   SAMDocs.Block.para
     { runs := [{ text := "cd segment-anything/demo && npm ci && npm run dev", bold := none, italic := none }],
       style := "Intense Quote",
       alignment := none },
   SAMDocs.Block.heading "8. Data Flow" 1,
   SAMDocs.Block.para
     { runs := [{ text := "Input image loaded and preprocessed (transforms)", bold := none, italic := none }],
       style := "List Bullet",
       alignment := none },
   SAMDocs.Block.para
     { runs := [{ text := "Prompt encoding (points/boxes/masks)", bold := none, italic := none }],
       style := "List Bullet",
       alignment := none },
   SAMDocs.Block.para
     { runs := [{ text := "Image encoding via vision transformer", bold := none, italic := none }],
       style := "List Bullet",
       alignment := none },
   SAMDocs.Block.para
     { runs := [{ text := "Mask decoding conditioned on prompts", bold := none, italic := none }],
       style := "List Bullet",
       alignment := none },
   SAMDocs.Block.para
     { runs := [{ text := "Post-processing and thresholding to produce binary masks", bold := none, italic := none }],
       style := "List Bullet",
       alignment := none },
   SAMDocs.Block.heading "9. Quality, Performance, and Risks" 1,
   SAMDocs.Block.para
     { runs := [{ text := "Deterministic inference given fixed prompts", bold := none, italic := none }],
       style := "List Bullet",
       alignment := none },
   SAMDocs.Block.para
     { runs := [{ text := "Performance depends on model size and hardware", bold := none, italic := none }],
       style := "List Bullet",
       alignment := none },
   SAMDocs.Block.para
     { runs := [{ text := "Memory use may be high for large images", bold := none, italic := none }],
       style := "List Bullet",
       alignment := none },
   SAMDocs.Block.para
     { runs := [{ text := "ONNX runtime on CPU may be slow; prefer GPU if available", bold := none, italic := none }],
       style := "List Bullet",
       alignment := none },
   SAMDocs.Block.heading "10. Roadmap & Next Steps" 1,
   SAMDocs.Block.para
     { runs := [{ text := "Add CLI for promptable single-image segmentation", bold := none, italic := none }],
       style := "List Bullet",
       alignment := none },
   SAMDocs.Block.para
     { runs := [{ text := "Dockerize demo and backend for easier deployment", bold := none, italic := none }],
       style := "List Bullet",
       alignment := none },
   SAMDocs.Block.para
     { runs := [{ text := "Provide evaluation scripts and metrics", bold := none, italic := none }],
       style := "List Bullet",
       alignment := none },
   SAMDocs.Block.para
     { runs := [{ text := "Integrate continuous testing and linting in CI", bold := none, italic := none }],
       style := "List Bullet",
       alignment := none },
   SAMDocs.Block.heading "Appendix A: References" 1,
   SAMDocs.Block.para
     { runs := [{ text := "README.md for overall guidance", bold := none, italic := none }],
       style := "List Bullet",
       alignment := none },
   SAMDocs.Block.para
     { runs := [{ text := "Notebooks for hands-on examples", bold := none, italic := none }],
       style := "List Bullet",
       alignment := none },
   SAMDocs.Block.para
     { runs := [{ text := "Demo `README.md` for web UI", bold := none, italic := none }],
       style := "List Bullet",
       alignment := none }]

set_option maxHeartbeats 1000000 in
/-- Closed form of the generated content: the title heading, then the
time-stamped cover paragraph, then the fixed tail, independent of the clock
and the output path. -/
lemma gen_eq (now output_path : String) :
    (generate_doc now output_path).2 =
      Block.heading "Segment Anything Model (SAM) - Project Documentation" 0 ::
      Block.para (coverPara now) :: docTail := by
  simp [generate_doc, docx_new, add_heading, docx_add_heading, add_paragraph,
        add_bullets, add_numbered, docx_add_paragraph, docx_paragraph, coverPara, docTail]

/-- Two generated contents agree at block index 1 only when the formatted
clock readings agree. -/
lemma cover_get_inj (output_path n₁ n₂ : String)
    (h : ((generate_doc n₁ output_path).2).get? 1 =
         ((generate_doc n₂ output_path).2).get? 1) :
    n₁ = n₂ := by
  rw [gen_eq n₁ output_path, gen_eq n₂ output_path] at h
  simp only [List.get?, coverPara, Option.some.injEq, Block.para.injEq,
    Paragraph.mk.injEq, List.cons.injEq, Run.mk.injEq, and_true, true_and] at h
  exact string_append_left_cancel h

/-! ## Claims -/

set_option maxHeartbeats 1000000 in
/-- C1, counterexample: the claim asserts the produced document contains
exactly ten level-1 headings after the single title-level heading, but a
concrete run of `generate_doc` produces eleven level-1 headings — the ten
numbered sections plus the appendix heading. -/
theorem C1_counterexample :
    ((headings (generate_doc "2024-01-01 10:00" "SAM_Project_Documentation.docx").2).filter
        (fun x => x.2 == 1)).length = 11 ∧
    ¬ ((headings (generate_doc "2024-01-01 10:00" "SAM_Project_Documentation.docx").2).filter
        (fun x => x.2 == 1)).length = 10 := by
  rw [gen_eq]
  decide

set_option maxHeartbeats 1000000 in
/-- C1, amended: for every successful run of `generate_doc`, the produced
document contains exactly one title-level (level-0) heading followed by
exactly eleven level-1 headings, in the fixed order Title/cover, Executive
Summary, Scope & Objectives, Architecture Overview, Key Directories, Setup
& Installation, Usage-Python, ONNX & Web Demo, Data Flow,
Quality/Performance/Risks, Roadmap, Appendix. -/
theorem C1_headings (now output_path : String) :
    headings (generate_doc now output_path).2 =
      [("Segment Anything Model (SAM) - Project Documentation", 0),
       ("1. Executive Summary", 1), ("2. Scope & Objectives", 1),
       ("3. Architecture Overview", 1), ("4. Key Directories & Files", 1),
       ("5. Setup & Installation", 1), ("6. Usage - Python", 1),
       ("7. ONNX & Web Demo", 1), ("8. Data Flow", 1),
       ("9. Quality, Performance, and Risks", 1), ("10. Roadmap & Next Steps", 1),
       ("Appendix A: References", 1)] := by
  rw [gen_eq now output_path]
  rfl

/-- C2, counterexample: two runs of `generate_doc` with the same output path
and the same library, but clock readings one minute apart, write different
document content — the claim's inputs (path, library version) do not
determine the bytes. -/
theorem C2_counterexample :
    (generate_doc "2024-01-01 10:00" "SAM_Project_Documentation.docx").2 ≠
    (generate_doc "2024-01-01 10:01" "SAM_Project_Documentation.docx").2 := by
  intro h
  have h1 := cover_get_inj "SAM_Project_Documentation.docx" "2024-01-01 10:00"
    "2024-01-01 10:01" (congrArg (fun d => List.get? d 1) h)
  exact absurd h1 (by decide)

/-- C2, amended: for any two runs of `generate_doc` with identical inputs
(same output path, same library version), the written document content is
byte-identical exactly when the current date-time formatted to minute
resolution is also identical across the two runs. -/
theorem C2_content_determined_by_timestamp (output_path n₁ n₂ : String) :
    (generate_doc n₁ output_path).2 = (generate_doc n₂ output_path).2 ↔ n₁ = n₂ := by
  constructor
  · intro h
    exact cover_get_inj output_path n₁ n₂ (congrArg (fun d => List.get? d 1) h)
  · intro h
    rw [h]

/-- C3: if the python-docx dependency cannot be loaded at startup, the
process terminates with the user-readable missing-dependency message; no
content is generated and no output file is written (the run's result is the
error alone, with no `RunOutput`). -/
theorem C3_missing_dependency (script_dir now : String) :
    run_main false script_dir now =
      Except.error
        "Missing dependency \x27python-docx\x27. Please install it: pip install python-docx" :=
  rfl

/-- C4: the zero-argument entry point writes the document to the fixed
filename `OUTPUT_NAME` joined to the generator's own directory, and on
success prints exactly that path; when the generator's directory is an
absolute path (as it is on the Python versions able to run this script),
the printed path is absolute. -/
theorem C4_entry_point (script_dir now : String) :
    run_main true script_dir now =
      Except.ok { written := some (generate_doc now (os_path_join script_dir OUTPUT_NAME)),
                  stdout := ["Wrote documentation to: " ++ os_path_join script_dir OUTPUT_NAME] } ∧
    (generate_doc now (os_path_join script_dir OUTPUT_NAME)).1 =
      os_path_join script_dir OUTPUT_NAME ∧
    (isAbsolute script_dir = true → isAbsolute (os_path_join script_dir OUTPUT_NAME) = true) := by
  refine ⟨rfl, rfl, ?_⟩
  intro h
  unfold os_path_join
  split
  · rename_i h0
    rw [h0] at h
    exact absurd h (by decide)
  · split
    · exact isAbsolute_append script_dir OUTPUT_NAME h
    · exact isAbsolute_append (script_dir ++ "/") OUTPUT_NAME (isAbsolute_append script_dir "/" h)

/-- C4, witness: instantiating the entry-point theorem at a concrete
absolute script directory. -/
theorem C4_entry_point_witness :
    isAbsolute (os_path_join "/repo/SAM" OUTPUT_NAME) = true :=
  (C4_entry_point "/repo/SAM" "2024-01-01 10:00").2.2 (by decide)

/-- C5: `add_paragraph` centers the appended paragraph when alignment is
"center", right-aligns it when alignment is "right", and for every other
value (including `none` and unrecognized strings) leaves the alignment
property unset, which renders as the left default. -/
theorem C5_alignment (d : Document) (t : String) (b i : Bool) (a : Option String) :
    (a = some "center" → (add_paragraph d t b i a).2.alignment = some WDAlign.center) ∧
    (a = some "right" → (add_paragraph d t b i a).2.alignment = some WDAlign.right) ∧
    (a ≠ some "center" → a ≠ some "right" →
      (add_paragraph d t b i a).2.alignment = none ∧
      renderedAlignment (add_paragraph d t b i a).2.alignment = WDAlign.left) := by
  refine ⟨?_, ?_, ?_⟩
  · intro h
    subst h
    rfl
  · intro h
    subst h
    rfl
  · intro h1 h2
    have halign : (add_paragraph d t b i a).2.alignment =
        (if a = some "center" then some WDAlign.center
         else if a = some "right" then some WDAlign.right else none) := rfl
    rw [halign, if_neg h1, if_neg h2]
    exact ⟨rfl, rfl⟩

/-- C5, witness: the three alignment behaviours at concrete arguments. -/
theorem C5_alignment_witness :
    (add_paragraph [] "t" false false (some "center")).2.alignment = some WDAlign.center ∧
    (add_paragraph [] "t" false false (some "right")).2.alignment = some WDAlign.right ∧
    ((add_paragraph [] "t" false false (some "justify")).2.alignment = none ∧
      renderedAlignment (add_paragraph [] "t" false false (some "justify")).2.alignment =
        WDAlign.left) :=
  ⟨(C5_alignment [] "t" false false (some "center")).1 rfl,
   (C5_alignment [] "t" false false (some "right")).2.1 rfl,
   (C5_alignment [] "t" false false (some "justify")).2.2 (by decide) (by decide)⟩

/-- C6: for every list of items, `add_bullets` appends exactly one
"List Bullet" paragraph per element, and `add_numbered` exactly one
"List Number" paragraph per element, both preserving input order. -/
theorem C6_list_helpers (d : Document) (items : List String) :
    add_bullets d items =
      d ++ items.map (fun item => Block.para (docx_paragraph item "List Bullet")) ∧
    add_numbered d items =
      d ++ items.map (fun item => Block.para (docx_paragraph item "List Number")) := by
  constructor
  · exact foldl_append_map (fun item => Block.para (docx_paragraph item "List Bullet")) items d
  · exact foldl_append_map (fun item => Block.para (docx_paragraph item "List Number")) items d

set_option maxHeartbeats 1000000 in
/-- C7: the document produced by `generate_doc` contains exactly nine
rendered list blocks, each holding exactly the literal items hardcoded in
the generator in their source order; in particular the Scope & Objectives
list (second group) has exactly 4 items, the first being "Integrate SAM
core components for promptable segmentation". -/
theorem C7_document_lists (now output_path : String) :
    listGroups (generate_doc now output_path).2 =
      [("List Bullet",
        ["Outcome: Generate high-quality object masks from images with minimal prompts",
         "Deliverables: Python package, demo web app, example notebooks, output masks",
         "Stakeholders: PM, ML/Software Engineers",
         "Status: Ready for local runs and demonstrations"]),
       ("List Bullet",
        ["Integrate SAM core components for promptable segmentation",
         "Provide automatic mask generation utility",
         "Export model to ONNX and demo browser inference",
         "Offer notebooks for common usage patterns"]),
       ("List Number",
        ["Python package (`segment_anything/`): model, encoders, decoders, utilities",
         "Scripts (`scripts/`): automatic mask generator, ONNX export",
         "Notebooks (`notebooks/`): runnable examples",
         "Web demo (`segment-anything/demo/`): React + TypeScript UI",
         "Artifacts (`output_dir/`): generated masks and overlays"]),
       ("List Bullet",
        ["segment_anything/modeling/sam.py: SAM model assembly",
         "segment_anything/predictor.py: High-level predictor API",
         "segment_anything/automatic_mask_generator.py: Batch/auto mask generation",
         "segment_anything/utils/onnx.py: ONNX export helpers",
         "scripts/amg.py: CLI for automatic mask generation",
         "scripts/export_onnx_model.py: Export to ONNX",
         "segment-anything/demo/src: Frontend demo application",
         "output_dir/mask/*.png: Generated masks",
         "output_dir/mask_overlay.png: Composite overlay"]),
       ("List Bullet",
        ["Python 3.9+ with pip", "Node.js 16+ (for web demo)",
         "GPU optional; CPU works for demos (slower)"]),
       ("List Bullet",
        ["Input image loaded and preprocessed (transforms)",
         "Prompt encoding (points/boxes/masks)",
         "Image encoding via vision transformer",
         "Mask decoding conditioned on prompts",
         "Post-processing and thresholding to produce binary masks"]),
       ("List Bullet",
        ["Deterministic inference given fixed prompts",
         "Performance depends on model size and hardware",
         "Memory use may be high for large images",
         "ONNX runtime on CPU may be slow; prefer GPU if available"]),
       ("List Bullet",
        ["Add CLI for promptable single-image segmentation",
         "Dockerize demo and backend for easier deployment",
         "Provide evaluation scripts and metrics",
         "Integrate continuous testing and linting in CI"]),
       ("List Bullet",
        ["README.md for overall guidance", "Notebooks for hands-on examples",
         "Demo `README.md` for web UI"])] ∧
    (listGroups (generate_doc now output_path).2).get? 1 =
      some ("List Bullet",
        ["Integrate SAM core components for promptable segmentation",
         "Provide automatic mask generation utility",
         "Export model to ONNX and demo browser inference",
         "Offer notebooks for common usage patterns"]) := by
  refine ⟨?_, ?_⟩
  · rw [gen_eq now output_path]
    rfl
  · rw [gen_eq now output_path]
    rfl

/-- C8: appending an empty item list through `add_bullets` or `add_numbered`
leaves the document completely unchanged. -/
theorem C8_empty_items_no_change (d : Document) :
    add_bullets d [] = d ∧ add_numbered d [] = d :=
  ⟨rfl, rfl⟩

set_option maxHeartbeats 1000000 in
/-- C9: two runs of `generate_doc` produce block sequences of equal length
that agree at every index except 1; index 1 holds the "Generated: ..."
cover paragraph embedding the run's clock reading, and it differs between
the runs exactly when the formatted clock readings differ. -/
theorem C9_runs_agree_except_cover (output_path n₁ n₂ : String) :
    ((generate_doc n₁ output_path).2).length = ((generate_doc n₂ output_path).2).length ∧
    (∀ i : Nat, i ≠ 1 →
      ((generate_doc n₁ output_path).2).get? i = ((generate_doc n₂ output_path).2).get? i) ∧
    ((generate_doc n₁ output_path).2).get? 1 = some (Block.para (coverPara n₁)) ∧
    (n₁ ≠ n₂ →
      ((generate_doc n₁ output_path).2).get? 1 ≠ ((generate_doc n₂ output_path).2).get? 1) := by
  refine ⟨?_, ?_, ?_, ?_⟩
  · rw [gen_eq n₁ output_path, gen_eq n₂ output_path]
    rfl
  · intro i hi
    rw [gen_eq n₁ output_path, gen_eq n₂ output_path]
    match i, hi with
    | 0, _ => rfl
    | 1, hi => exact absurd rfl hi
    | (k+2), _ => rfl
  · rw [gen_eq n₁ output_path]
    rfl
  · intro hne hgot
    exact hne (cover_get_inj output_path n₁ n₂ hgot)

set_option maxHeartbeats 1000000 in
/-- C9, witness: at concrete clock readings one minute apart, block 0 agrees
across the runs while block 1 differs. -/
theorem C9_runs_agree_except_cover_witness :
    ((generate_doc "2024-01-01 10:00" "out.docx").2).get? 0 =
      ((generate_doc "2024-01-01 10:01" "out.docx").2).get? 0 ∧
    ((generate_doc "2024-01-01 10:00" "out.docx").2).get? 1 ≠
      ((generate_doc "2024-01-01 10:01" "out.docx").2).get? 1 :=
  ⟨(C9_runs_agree_except_cover "out.docx" "2024-01-01 10:00" "2024-01-01 10:01").2.1
      0 (by decide),
   (C9_runs_agree_except_cover "out.docx" "2024-01-01 10:00" "2024-01-01 10:01").2.2.2
      (by decide)⟩

/-- C10: every call to `add_paragraph` appends a paragraph containing exactly
one run whose text is the text argument and whose bold and italic flags are
explicitly set (to `some bold` / `some italic`, also when the defaults are
used), and returns the created paragraph — the appended block holds exactly
the returned paragraph. -/
theorem C10_add_paragraph_run_and_return (d : Document) (t : String) (b i : Bool)
    (a : Option String) :
    (add_paragraph d t b i a).2.runs = [{ text := t, bold := some b, italic := some i }] ∧
    (add_paragraph d t b i a).1 = d ++ [Block.para (add_paragraph d t b i a).2] :=
  ⟨rfl, rfl⟩

end SAMDocs
